import Mathlib

/-
  Verification development for the SecureDNS DoH forwarding proxy
  (src/doh_service.go). The Go source is shallowly embedded: DNS messages
  become a Lean structure carrying the header fields the program touches,
  external collaborators (the miekg/dns wire codec, the HTTPS transport,
  the plain-DNS bootstrap resolver, the error logger) become oracle
  function parameters, and every observable effect of a handler invocation
  (messages written, upstream forwards, error-log emissions, cache reads
  and inserts) is recorded in an explicit result structure.

  Pointer mutation in the Go code (dns.Msg.SetReply mutates its receiver,
  and the cache stores pointers) is modelled by value: wherever the Go
  code mutates a message that the cache or the handler still holds, the
  embedding replaces the stored value by the mutated one.
-/

namespace SecureDNS

/-- DNS record type A (dns.TypeA in miekg/dns). -/
def TypeA : Nat := 1

/-- DNS record type TXT, used only to build concrete non-A sample queries. -/
def TypeTXT : Nat := 16

/-- dns.OpcodeQuery. -/
def OpcodeQuery : Nat := 0

/-- dns.RcodeSuccess. -/
def RcodeSuccess : Nat := 0

/-- dns.RcodeServerFailure (SERVFAIL). -/
def RcodeServerFailure : Nat := 2

/-- Constant CLOUDFLARE_DNS from doh_service.go. -/
def CLOUDFLARE_DNS : String := "1.1.1.1:53"

/-- Constant CLOUDFLARE_DOH_HOST from doh_service.go. -/
def CLOUDFLARE_DOH_HOST : String := "cloudflare-dns.com."

/-- Constant CLOUDFLARE_DOH_URL from doh_service.go. -/
def CLOUDFLARE_DOH_URL : String := "https://cloudflare-dns.com/dns-query"

/-- A DNS question: name, record type, class (dns.Question). -/
structure Question where
  name : String
  qtype : Nat
  qclass : Nat
deriving DecidableEq, Repr

/-- A DNS message (dns.Msg), restricted to the fields the program reads or
writes: the header fields touched by SetReply/SetRcode, the question
section, and the answer section. Answer records are opaque to the program,
so they are modelled as opaque data (a list of naturals standing for the
encoded records). -/
structure Msg where
  id : Nat
  response : Bool
  opcode : Nat
  recursionDesired : Bool
  checkingDisabled : Bool
  rcode : Nat
  question : List Question
  answer : List Nat
deriving DecidableEq, Repr

/-- miekg/dns Msg.SetReply, written field-wise. The Go method mutates its
receiver in order: Id := request.Id; Response := true; Opcode :=
request.Opcode; if the (just assigned) opcode is OpcodeQuery, the rd and
cd bits are copied from the request; Rcode := RcodeSuccess; and when the
request has at least one question, the question section is replaced by a
fresh one-element slice holding the request's first question. The answer
section is untouched. -/
def Msg.SetReply (m req : Msg) : Msg :=
  { id := req.id
    response := true
    opcode := req.opcode
    recursionDesired :=
      if req.opcode = OpcodeQuery then req.recursionDesired else m.recursionDesired
    checkingDisabled :=
      if req.opcode = OpcodeQuery then req.checkingDisabled else m.checkingDisabled
    rcode := RcodeSuccess
    question :=
      match req.question with
      | q0 :: _ => [q0]
      | [] => m.question
    answer := m.answer }

/-- miekg/dns Msg.SetRcode: SetReply followed by overwriting the rcode. -/
def Msg.SetRcode (m req : Msg) (rc : Nat) : Msg :=
  { m.SetReply req with rcode := rc }

/-- The zero dns.Msg produced by new(dns.Msg). -/
def newMsg : Msg :=
  { id := 0, response := false, opcode := 0, recursionDesired := false,
    checkingDisabled := false, rcode := 0, question := [], answer := [] }

/-- miekg/dns HandleFailed: writes a fresh message carrying
RcodeServerFailure for the request. This definition returns the message
written. -/
def HandleFailed (r : Msg) : Msg :=
  newMsg.SetRcode r RcodeServerFailure

/-- NameCache lookup (go-cache Get), modelled on an association list from
queried name to stored message. -/
def cacheGet (c : List (String × Msg)) (n : String) : Option Msg :=
  match c with
  | [] => none
  | (k, v) :: rest => if k = n then some v else cacheGet rest n

/-- NameCache store (go-cache SetDefault): replace the entry for the key,
or insert it. Also used to model in-place mutation of a stored message
through an aliased pointer. -/
def cacheSet (c : List (String × Msg)) (n : String) (m : Msg) : List (String × Msg) :=
  match c with
  | [] => [(n, m)]
  | (k, v) :: rest => if k = n then (n, m) :: rest else (k, v) :: cacheSet rest n m

/-- Error string built by QueryOverHTTPS when Msg.Pack fails. -/
def PACK_ERR : String := "Can\x27t pack message from wireformat."

/-- Error string built by QueryOverHTTPS when makeHttpsRequest fails. -/
def HTTPS_ERR : String := "HTTPS Request failed."

/-- Error string built by QueryOverHTTPS when Msg.Unpack fails. -/
def UNPACK_ERR : String := "Can\x27t unpack message from wireformat."

/-- One HTTP POST exchange as seen by makeHttpsRequest: either the
underlying client returns an error, or a response arrives with a numeric
status code, a status text, and a body whose read may itself fail. -/
inductive HttpOutcome where
  | netErr (e : String)
  | response (statusCode : Nat) (status : String) (body : Except String (List Nat))
deriving Repr

/-- The data of one HTTP POST issued by makeHttpsRequest: target URL,
content type, and request body. -/
structure PostRequest where
  url : String
  contentType : String
  body : List Nat
deriving DecidableEq, Repr

/-- Result of makeHttpsRequest: the returned value and the list of POSTs
performed during the call. -/
structure HttpResult where
  result : Except String (List Nat)
  posts : List PostRequest
deriving Repr

/-- The one POST request makeHttpsRequest builds for given wire bytes:
the fixed upstream URL, the fixed DoH content type, and the query bytes
as body. -/
def dohPost (wire : List Nat) : PostRequest :=
  { url := CLOUDFLARE_DOH_URL, contentType := "application/dns-udpwireformat", body := wire }

/-- makeHttpsRequest from doh_service.go. `exchange` is the HTTP client
oracle: it maps the POST actually issued to its outcome. The Go code
posts the wire bytes once to CLOUDFLARE_DOH_URL with the DoH content
type; a client error is returned unchanged, a non-200 status becomes an
error without reading the body, otherwise the body bytes (or the body
read error) are returned. -/
def makeHttpsRequest (exchange : PostRequest → HttpOutcome) (wire : List Nat) : HttpResult :=
  let req : PostRequest := dohPost wire
  match exchange req with
  | HttpOutcome.netErr e => { result := Except.error e, posts := [req] }
  | HttpOutcome.response statusCode status body =>
    if statusCode ≠ 200 then
      { result := Except.error ("HTTP error code " ++ status), posts := [req] }
    else
      match body with
      | Except.ok b => { result := Except.ok b, posts := [req] }
      | Except.error e => { result := Except.error e, posts := [req] }

/-- The external wire codec plus transport, as consumed by QueryOverHTTPS:
Msg.Pack, makeHttpsRequest (abstracted to its returned value), and
Msg.Unpack. -/
structure WireCollab where
  pack : Msg → Except String (List Nat)
  transportSend : List Nat → Except String (List Nat)
  unpack : List Nat → Except String Msg

/-- Result of QueryOverHTTPS: the returned value plus how many times each
collaborator stage was invoked. -/
structure QueryResult where
  result : Except String Msg
  packCalls : Nat
  sendCalls : Nat
  unpackCalls : Nat
deriving Repr

/-- QueryOverHTTPS from doh_service.go: pack the query, send it over
HTTPS, unpack the reply; each stage runs only when the previous one
succeeded, and each failure is replaced by the corresponding DohError
string. -/
def QueryOverHTTPS (c : WireCollab) (r : Msg) : QueryResult :=
  match c.pack r with
  | Except.error _ =>
    { result := Except.error PACK_ERR, packCalls := 1, sendCalls := 0, unpackCalls := 0 }
  | Except.ok wire =>
    match c.transportSend wire with
    | Except.error _ =>
      { result := Except.error HTTPS_ERR, packCalls := 1, sendCalls := 1, unpackCalls := 0 }
    | Except.ok resp =>
      match c.unpack resp with
      | Except.error _ =>
        { result := Except.error UNPACK_ERR, packCalls := 1, sendCalls := 1, unpackCalls := 1 }
      | Except.ok m =>
        { result := Except.ok m, packCalls := 1, sendCalls := 1, unpackCalls := 1 }

/-- Which branch of ServeDNS handled the request. -/
inductive ServePath where
  | selfHost
  | cacheHit
  | cacheMiss
  | relay
deriving DecidableEq, Repr

/-- Everything observable about one ServeDNS invocation: the handler's
host message and cache after the call (pointer mutation modelled by
value), the messages written to the response writer, the queries handed
to QueryOverHTTPS, the errors passed to WriteErrorLog, the cache keys
read, the (key, value-at-insertion) pairs stored, and the branch taken. -/
structure ServeResult where
  host : Msg
  cache : List (String × Msg)
  written : List Msg
  forwards : List Msg
  errorLogged : List String
  cacheGets : List String
  cacheSets : List (String × Msg)
  path : ServePath
deriving Repr

/-- The else-branch of ServeDNS (zero questions, or first question not of
type A): relay via QueryOverHTTPS; on success SetReply the decoded reply
and write it, on failure HandleFailed — with no WriteErrorLog call and no
cache access. `fwd` abstracts s.QueryOverHTTPS to its returned value. -/
def relayBranch (fwd : Msg → Except String Msg) (host : Msg)
    (cache : List (String × Msg)) (r : Msg) : ServeResult :=
  match fwd r with
  | Except.ok respMsg =>
    let m2 := respMsg.SetReply r
    { host := host, cache := cache, written := [m2], forwards := [r],
      errorLogged := [], cacheGets := [], cacheSets := [], path := ServePath.relay }
  | Except.error _ =>
    { host := host, cache := cache, written := [HandleFailed r], forwards := [r],
      errorLogged := [], cacheGets := [], cacheSets := [], path := ServePath.relay }

/-- SecHandler.ServeDNS from doh_service.go. The condition
len(r.Question) > 0 && r.Question[0].Qtype == dns.TypeA selects the
A-type branch; inside it, a first question naming CLOUDFLARE_DOH_HOST is
answered from the host record (s.Host.SetReply(r) mutates the handler's
host message, returned here as the updated host field), otherwise the
cache is consulted; a hit mutates the stored message in place via
SetReply and writes it; a miss forwards, and on success stores the reply
under the queried name before SetReply mutates that same stored message,
on failure logs via WriteErrorLog and answers HandleFailed. All other
requests take relayBranch. -/
def ServeDNS (fwd : Msg → Except String Msg) (host : Msg)
    (cache : List (String × Msg)) (r : Msg) : ServeResult :=
  match r.question with
  | q0 :: _ =>
    if q0.qtype = TypeA then
      if q0.name = CLOUDFLARE_DOH_HOST then
        let h2 := host.SetReply r
        { host := h2, cache := cache, written := [h2], forwards := [],
          errorLogged := [], cacheGets := [], cacheSets := [], path := ServePath.selfHost }
      else
        let requestedName := q0.name
        match cacheGet cache requestedName with
        | some x =>
          let m2 := x.SetReply r
          { host := host, cache := cacheSet cache requestedName m2, written := [m2],
            forwards := [], errorLogged := [], cacheGets := [requestedName],
            cacheSets := [], path := ServePath.cacheHit }
        | none =>
          match fwd r with
          | Except.ok respMsg =>
            let m2 := respMsg.SetReply r
            { host := host, cache := cacheSet cache requestedName m2, written := [m2],
              forwards := [r], errorLogged := [], cacheGets := [requestedName],
              cacheSets := [(requestedName, respMsg)], path := ServePath.cacheMiss }
          | Except.error e =>
            { host := host, cache := cache, written := [HandleFailed r], forwards := [r],
              errorLogged := [e], cacheGets := [requestedName],
              cacheSets := [], path := ServePath.cacheMiss }
    else relayBranch fwd host cache r
  | [] => relayBranch fwd host cache r

/-- The Go condition len(r.Question) > 0 && r.Question[0].Qtype == dns.TypeA. -/
def isATypeQuery (r : Msg) : Bool :=
  match r.question with
  | q0 :: _ => q0.qtype == TypeA
  | [] => false

/-- The full guard of the self-host shortcut: nonempty question section
whose first question is an A-type question for CLOUDFLARE_DOH_HOST. -/
def isSelfHostQuery (r : Msg) : Bool :=
  match r.question with
  | q0 :: _ => q0.qtype == TypeA && q0.name == CLOUDFLARE_DOH_HOST
  | [] => false

/-- Accumulated observable effects of serving a sequence of queries with
one handler, threading the host record and the cache through the calls. -/
structure SeqResult where
  host : Msg
  cache : List (String × Msg)
  forwards : List Msg
  cacheGets : List String
  cacheSets : List (String × Msg)
deriving Repr

/-- Serve a list of queries in order, threading handler state and
concatenating the effect traces. -/
def ServeSeq (fwd : Msg → Except String Msg) (host : Msg)
    (cache : List (String × Msg)) : List Msg → SeqResult
  | [] => { host := host, cache := cache, forwards := [], cacheGets := [], cacheSets := [] }
  | r :: rs =>
    let s := ServeDNS fwd host cache r
    let t := ServeSeq fwd s.host s.cache rs
    { host := t.host, cache := t.cache, forwards := s.forwards ++ t.forwards,
      cacheGets := s.cacheGets ++ t.cacheGets, cacheSets := s.cacheSets ++ t.cacheSets }

/-- The bootstrap error returned by RunDNS when all attempts fail. -/
def BOOTSTRAP_FAIL : String :=
  "Failed to obtain Cloudflare\x27s DOH server address. The DNS service could not be started."

/-- Result of RunDNS: how many getDohHostAddr calls and one-second sleeps
happened, the host message handed to the constructed SecHandler (none if
no handler was built), whether the UDP listener was started, and the
returned error if any. -/
structure RunResult where
  resolveCalls : Nat
  sleeps : Nat
  handlerHost : Option Msg
  listenerStarted : Bool
  outcome : Except String Unit
deriving Repr

/-- The retry loop of RunDNS (for i := 1; i < 6; i++): each iteration
sleeps one second then calls getDohHostAddr at attempt index i, breaking
on the first success. `fuel` is the number of iterations left (5 when
entered from RunDNS). Returns the final resolution result together with
the number of loop iterations executed (= calls made = sleeps). -/
def bootstrapRetry (resolve : Nat → Except String Msg) (i : Nat)
    (prev : Except String Msg) : Nat → Except String Msg × Nat
  | 0 => (prev, 0)
  | Nat.succ fuel =>
    match resolve i with
    | Except.ok h => (Except.ok h, 1)
    | Except.error e =>
      let p := bootstrapRetry resolve (i + 1) (Except.error e) fuel
      (p.1, p.2 + 1)

/-- RunDNS from doh_service.go, with getDohHostAddr abstracted as an
oracle giving the result of the attempt with each index (0 is the initial
call). On initial success the handler is built at once; otherwise up to 5
retries run, each after a one-second sleep; if the final result is still
an error, RunDNS returns the bootstrap error without building the
SecHandler or starting the UDP listener. -/
def RunDNS (resolve : Nat → Except String Msg) : RunResult :=
  match resolve 0 with
  | Except.ok h =>
    { resolveCalls := 1, sleeps := 0, handlerHost := some h,
      listenerStarted := true, outcome := Except.ok () }
  | Except.error e0 =>
    let p := bootstrapRetry resolve 1 (Except.error e0) 5
    match p.1 with
    | Except.ok h =>
      { resolveCalls := p.2 + 1, sleeps := p.2, handlerHost := some h,
        listenerStarted := true, outcome := Except.ok () }
    | Except.error _ =>
      { resolveCalls := p.2 + 1, sleeps := p.2, handlerHost := none,
        listenerStarted := false, outcome := Except.error BOOTSTRAP_FAIL }

/-- Whether an Except value is an error. -/
def exErr {α : Type} : Except String α → Bool
  | Except.error _ => true
  | Except.ok _ => false

/-- Sample A-type question for the DoH upstream's own hostname. -/
def qSelfA : Question :=
  { name := CLOUDFLARE_DOH_HOST, qtype := TypeA, qclass := 1 }

/-- Sample A-type question for an ordinary name. -/
def qExampleA : Question :=
  { name := "example.com.", qtype := TypeA, qclass := 1 }

/-- Sample TXT (non-A) question for an ordinary name. -/
def qExampleTXT : Question :=
  { name := "example.com.", qtype := TypeTXT, qclass := 1 }

/-- Build a sample query message with the given question section and id. -/
def mkQuery (qs : List Question) (i : Nat) : Msg :=
  { id := i, response := false, opcode := 0, recursionDesired := true,
    checkingDisabled := false, rcode := 0, question := qs, answer := [] }

/-- Sample host record as resolved at bootstrap: the answer field holds
opaque data standing for the upstream's statically resolved address. -/
def hostSample : Msg :=
  { id := 42, response := true, opcode := 0, recursionDesired := true,
    checkingDisabled := false, rcode := 0, question := [qSelfA], answer := [104, 16, 248, 249] }

/-- Sample decoded upstream reply; its rcode 3 (name error) is
deliberately non-success. -/
def respSample : Msg :=
  { id := 0, response := true, opcode := 0, recursionDesired := true,
    checkingDisabled := false, rcode := 3, question := [qExampleA], answer := [93, 184, 216, 34] }

/-- Forward oracle that always fails. -/
def fwdFail : Msg → Except String Msg := fun _ => Except.error ("boom")

/-- Forward oracle that always returns respSample. -/
def fwdOk : Msg → Except String Msg := fun _ => Except.ok respSample

/-- Wire collaborators where every stage succeeds. -/
def wcAllOk : WireCollab :=
  { pack := fun m => Except.ok [m.id], transportSend := fun w => Except.ok w,
    unpack := fun _ => Except.ok respSample }

/-- Wire collaborators whose pack stage fails. -/
def wcPackFail : WireCollab :=
  { pack := fun _ => Except.error ("p"), transportSend := fun w => Except.ok w,
    unpack := fun _ => Except.ok respSample }

/-- Wire collaborators whose transport stage fails. -/
def wcSendFail : WireCollab :=
  { pack := fun m => Except.ok [m.id], transportSend := fun _ => Except.error ("t"),
    unpack := fun _ => Except.ok respSample }

/-- Wire collaborators whose unpack stage fails. -/
def wcUnpackFail : WireCollab :=
  { pack := fun m => Except.ok [m.id], transportSend := fun w => Except.ok w,
    unpack := fun _ => Except.error ("u") }

/-- Bootstrap oracle that fails on attempts 0 and 1 and succeeds on 2. -/
def resolveThird : Nat → Except String Msg :=
  fun i => if i = 2 then Except.ok hostSample else Except.error ("unreachable")

/-- Bootstrap oracle that fails on every attempt. -/
def resolveNever : Nat → Except String Msg :=
  fun _ => Except.error ("unreachable")

/-- HTTP exchange oracle answering status 200 with the posted body. -/
def httpEcho : PostRequest → HttpOutcome :=
  fun req => HttpOutcome.response 200 ("200 OK") (Except.ok req.body)

/-- HTTP exchange oracle answering status 502 with no usable body. -/
def httpBadGateway : PostRequest → HttpOutcome :=
  fun _ => HttpOutcome.response 502 ("502 Bad Gateway") (Except.ok [])

/-- HTTP exchange oracle failing at the network level. -/
def httpNetFail : PostRequest → HttpOutcome :=
  fun _ => HttpOutcome.netErr ("tls handshake failed")

/-- SetReply never touches the answer section. -/
theorem setReply_answer (m req : Msg) : (m.SetReply req).answer = m.answer := rfl

/-- SetReply copies the request's transaction id. -/
theorem setReply_id (m req : Msg) : (m.SetReply req).id = req.id := rfl

/-- SetReply marks the message as a response. -/
theorem setReply_response (m req : Msg) : (m.SetReply req).response = true := rfl

/-- SetReply resets the rcode to success. -/
theorem setReply_rcode (m req : Msg) : (m.SetReply req).rcode = RcodeSuccess := rfl

/-- When the request has a question, SetReply installs exactly its first
question. -/
theorem setReply_question (m req : Msg) (q0 : Question) (rest : List Question)
    (hq : req.question = q0 :: rest) : (m.SetReply req).question = [q0] := by
  simp [Msg.SetReply, hq]

/-- Looking up the key just stored finds the stored value. -/
theorem cacheGet_cacheSet_self (c : List (String × Msg)) (n : String) (m : Msg) :
    cacheGet (cacheSet c n m) n = some m := by
  induction c with
  | nil => simp [cacheSet, cacheGet]
  | cons p rest ih =>
    by_cases h : p.1 = n
    · simp [cacheSet, cacheGet, h]
    · simp [cacheSet, cacheGet, h, ih]

/-- ServeDNS on the self-host branch: first question A-type for the DoH
hostname. -/
theorem serve_selfHost (fwd : Msg → Except String Msg) (host : Msg)
    (cache : List (String × Msg)) (r : Msg) (q0 : Question) (rest : List Question)
    (hq : r.question = q0 :: rest) (hA : q0.qtype = TypeA)
    (hN : q0.name = CLOUDFLARE_DOH_HOST) :
    ServeDNS fwd host cache r =
      { host := host.SetReply r, cache := cache, written := [host.SetReply r],
        forwards := [], errorLogged := [], cacheGets := [], cacheSets := [],
        path := ServePath.selfHost } := by
  unfold ServeDNS
  rw [hq]
  simp [hA, hN]

/-- ServeDNS on the cache-hit branch. -/
theorem serve_hit (fwd : Msg → Except String Msg) (host : Msg)
    (cache : List (String × Msg)) (r : Msg) (q0 : Question) (rest : List Question)
    (m : Msg) (hq : r.question = q0 :: rest) (hA : q0.qtype = TypeA)
    (hN : q0.name ≠ CLOUDFLARE_DOH_HOST) (hc : cacheGet cache q0.name = some m) :
    ServeDNS fwd host cache r =
      { host := host, cache := cacheSet cache q0.name (m.SetReply r),
        written := [m.SetReply r], forwards := [], errorLogged := [],
        cacheGets := [q0.name], cacheSets := [], path := ServePath.cacheHit } := by
  unfold ServeDNS
  rw [hq]
  simp [hA, hN, hc]

/-- ServeDNS on the cache-miss branch with a successful forward. -/
theorem serve_miss_ok (fwd : Msg → Except String Msg) (host : Msg)
    (cache : List (String × Msg)) (r : Msg) (q0 : Question) (rest : List Question)
    (resp : Msg) (hq : r.question = q0 :: rest) (hA : q0.qtype = TypeA)
    (hN : q0.name ≠ CLOUDFLARE_DOH_HOST) (hc : cacheGet cache q0.name = none)
    (hf : fwd r = Except.ok resp) :
    ServeDNS fwd host cache r =
      { host := host, cache := cacheSet cache q0.name (resp.SetReply r),
        written := [resp.SetReply r], forwards := [r], errorLogged := [],
        cacheGets := [q0.name], cacheSets := [(q0.name, resp)],
        path := ServePath.cacheMiss } := by
  unfold ServeDNS
  rw [hq]
  simp [hA, hN, hc, hf]

/-- ServeDNS on the cache-miss branch with a failing forward. -/
theorem serve_miss_err (fwd : Msg → Except String Msg) (host : Msg)
    (cache : List (String × Msg)) (r : Msg) (q0 : Question) (rest : List Question)
    (e : String) (hq : r.question = q0 :: rest) (hA : q0.qtype = TypeA)
    (hN : q0.name ≠ CLOUDFLARE_DOH_HOST) (hc : cacheGet cache q0.name = none)
    (hf : fwd r = Except.error e) :
    ServeDNS fwd host cache r =
      { host := host, cache := cache, written := [HandleFailed r], forwards := [r],
        errorLogged := [e], cacheGets := [q0.name], cacheSets := [],
        path := ServePath.cacheMiss } := by
  unfold ServeDNS
  rw [hq]
  simp [hA, hN, hc, hf]

/-- A query failing the A-type guard is handled by relayBranch. -/
theorem serve_relay (fwd : Msg → Except String Msg) (host : Msg)
    (cache : List (String × Msg)) (r : Msg) (hA : isATypeQuery r = false) :
    ServeDNS fwd host cache r = relayBranch fwd host cache r := by
  unfold ServeDNS
  cases hq : r.question with
  | nil => rfl
  | cons q0 rest =>
    have : ¬ q0.qtype = TypeA := by
      intro h
      rw [isATypeQuery, hq] at hA
      simp [h] at hA
    simp [this]

/-- relayBranch with a successful forward. -/
theorem relay_ok (fwd : Msg → Except String Msg) (host : Msg)
    (cache : List (String × Msg)) (r : Msg) (resp : Msg)
    (hf : fwd r = Except.ok resp) :
    relayBranch fwd host cache r =
      { host := host, cache := cache, written := [resp.SetReply r], forwards := [r],
        errorLogged := [], cacheGets := [], cacheSets := [],
        path := ServePath.relay } := by
  unfold relayBranch
  simp [hf]

/-- relayBranch with a failing forward. -/
theorem relay_err (fwd : Msg → Except String Msg) (host : Msg)
    (cache : List (String × Msg)) (r : Msg) (e : String)
    (hf : fwd r = Except.error e) :
    relayBranch fwd host cache r =
      { host := host, cache := cache, written := [HandleFailed r], forwards := [r],
        errorLogged := [], cacheGets := [], cacheSets := [],
        path := ServePath.relay } := by
  unfold relayBranch
  simp [hf]

/-- A zero-question message is handled by relayBranch. -/
theorem serve_relay_nil (fwd : Msg → Except String Msg) (host : Msg)
    (cache : List (String × Msg)) (r : Msg) (hq : r.question = []) :
    ServeDNS fwd host cache r = relayBranch fwd host cache r := by
  unfold ServeDNS
  rw [hq]

/-- A message whose first question is not A-type is handled by
relayBranch. -/
theorem serve_relay_cons (fwd : Msg → Except String Msg) (host : Msg)
    (cache : List (String × Msg)) (r : Msg) (q0 : Question) (rest : List Question)
    (hq : r.question = q0 :: rest) (hA : q0.qtype ≠ TypeA) :
    ServeDNS fwd host cache r = relayBranch fwd host cache r := by
  unfold ServeDNS
  rw [hq]
  simp [hA]

/-- relayBranch leaves the handler host, the cache, and all cache and
error-log traces untouched, and forwards exactly the incoming query. -/
theorem relay_frame (fwd : Msg → Except String Msg) (host : Msg)
    (cache : List (String × Msg)) (r : Msg) :
    (relayBranch fwd host cache r).host = host ∧
    (relayBranch fwd host cache r).cache = cache ∧
    (relayBranch fwd host cache r).cacheGets = [] ∧
    (relayBranch fwd host cache r).cacheSets = [] ∧
    (relayBranch fwd host cache r).errorLogged = [] ∧
    (relayBranch fwd host cache r).forwards = [r] := by
  unfold relayBranch
  cases hf : fwd r <;> simp

/-- Every ServeDNS invocation writes exactly one response message. -/
theorem serve_written_length (fwd : Msg → Except String Msg) (host : Msg)
    (cache : List (String × Msg)) (r : Msg) :
    (ServeDNS fwd host cache r).written.length = 1 := by
  cases hq : r.question with
  | nil =>
    rw [serve_relay_nil fwd host cache r hq]
    cases hf : fwd r with
    | ok resp => rw [relay_ok fwd host cache r resp hf]; rfl
    | error e => rw [relay_err fwd host cache r e hf]; rfl
  | cons q0 rest =>
    by_cases hA : q0.qtype = TypeA
    · by_cases hN : q0.name = CLOUDFLARE_DOH_HOST
      · rw [serve_selfHost fwd host cache r q0 rest hq hA hN]; rfl
      · cases hc : cacheGet cache q0.name with
        | some m => rw [serve_hit fwd host cache r q0 rest m hq hA hN hc]; rfl
        | none =>
          cases hf : fwd r with
          | ok resp => rw [serve_miss_ok fwd host cache r q0 rest resp hq hA hN hc hf]; rfl
          | error e => rw [serve_miss_err fwd host cache r q0 rest e hq hA hN hc hf]; rfl
    · rw [serve_relay_cons fwd host cache r q0 rest hq hA]
      cases hf : fwd r with
      | ok resp => rw [relay_ok fwd host cache r resp hf]; rfl
      | error e => rw [relay_err fwd host cache r e hf]; rfl

/-- Any cache insert performed by one ServeDNS call is keyed by the name
of the query's first question, which is of type A. -/
theorem serve_cacheSets_A (fwd : Msg → Except String Msg) (host : Msg)
    (cache : List (String × Msg)) (r : Msg) :
    ∀ p ∈ (ServeDNS fwd host cache r).cacheSets,
      ∃ q0 rest, r.question = q0 :: rest ∧ q0.qtype = TypeA ∧ q0.name = p.1 := by
  intro p hp
  cases hq : r.question with
  | nil =>
    rw [serve_relay_nil fwd host cache r hq, (relay_frame fwd host cache r).2.2.2.1] at hp
    simp at hp
  | cons q0 rest =>
    by_cases hA : q0.qtype = TypeA
    · by_cases hN : q0.name = CLOUDFLARE_DOH_HOST
      · rw [serve_selfHost fwd host cache r q0 rest hq hA hN] at hp
        simp at hp
      · cases hc : cacheGet cache q0.name with
        | some m =>
          rw [serve_hit fwd host cache r q0 rest m hq hA hN hc] at hp
          simp at hp
        | none =>
          cases hf : fwd r with
          | ok resp =>
            rw [serve_miss_ok fwd host cache r q0 rest resp hq hA hN hc hf] at hp
            simp at hp
            exact ⟨q0, rest, rfl, hA, by rw [hp]⟩
          | error e =>
            rw [serve_miss_err fwd host cache r q0 rest e hq hA hN hc hf] at hp
            simp at hp
    · rw [serve_relay_cons fwd host cache r q0 rest hq hA,
        (relay_frame fwd host cache r).2.2.2.1] at hp
      simp at hp

/-- The handler host after ServeDNS: mutated via SetReply exactly on the
self-host branch, untouched everywhere else. -/
theorem serve_host_char (fwd : Msg → Except String Msg) (host : Msg)
    (cache : List (String × Msg)) (r : Msg) :
    (ServeDNS fwd host cache r).host =
      (if isSelfHostQuery r = true then host.SetReply r else host) := by
  cases hq : r.question with
  | nil =>
    rw [serve_relay_nil fwd host cache r hq, (relay_frame fwd host cache r).1]
    simp [isSelfHostQuery, hq]
  | cons q0 rest =>
    by_cases hA : q0.qtype = TypeA
    · by_cases hN : q0.name = CLOUDFLARE_DOH_HOST
      · rw [serve_selfHost fwd host cache r q0 rest hq hA hN]
        simp [isSelfHostQuery, hq, hA, hN]
      · cases hc : cacheGet cache q0.name with
        | some m =>
          rw [serve_hit fwd host cache r q0 rest m hq hA hN hc]
          simp [isSelfHostQuery, hq, hN]
        | none =>
          cases hf : fwd r with
          | ok resp =>
            rw [serve_miss_ok fwd host cache r q0 rest resp hq hA hN hc hf]
            simp [isSelfHostQuery, hq, hN]
          | error e =>
            rw [serve_miss_err fwd host cache r q0 rest e hq hA hN hc hf]
            simp [isSelfHostQuery, hq, hN]
    · rw [serve_relay_cons fwd host cache r q0 rest hq hA, (relay_frame fwd host cache r).1]
      simp [isSelfHostQuery, hq, hA]

/-- If attempts i, i+1, …, i+k-1 fail and attempt i+k succeeds (k < fuel),
the retry loop stops at the success having made k+1 calls. -/
theorem bootstrapRetry_succeeds (resolve : Nat → Except String Msg) :
    ∀ fuel i prev k h, k < fuel →
      (∀ j, j < k → exErr (resolve (i + j)) = true) →
      resolve (i + k) = Except.ok h →
      bootstrapRetry resolve i prev fuel = (Except.ok h, k + 1) := by
  intro fuel
  induction fuel with
  | zero =>
    intro i prev k h hk
    exact absurd hk (Nat.not_lt_zero k)
  | succ f ih =>
    intro i prev k h hk hfail hok
    cases k with
    | zero =>
      have hi : resolve i = Except.ok h := by
        have e1 : i + 0 = i := rfl
        rw [e1] at hok
        exact hok
      simp [bootstrapRetry, hi]
    | succ k2 =>
      have h0 : exErr (resolve i) = true := by
        have := hfail 0 (Nat.succ_pos k2)
        simpa using this
      cases hres : resolve i with
      | ok _ =>
        rw [hres] at h0
        simp [exErr] at h0
      | error e =>
        have hrec := ih (i + 1) (Except.error e) k2 h (by omega)
          (fun j hj => by
            have e1 : i + 1 + j = i + (j + 1) := by omega
            rw [e1]
            exact hfail (j + 1) (by omega))
          (by
            have e1 : i + 1 + k2 = i + (k2 + 1) := by omega
            rw [e1]
            exact hok)
        simp [bootstrapRetry, hres, hrec]

/-- If every attempt i, …, i+fuel-1 fails and the incoming result was
already an error, the retry loop ends in an error after exactly fuel
calls. -/
theorem bootstrapRetry_all_fail (resolve : Nat → Except String Msg) :
    ∀ fuel i prev, exErr prev = true →
      (∀ j, j < fuel → exErr (resolve (i + j)) = true) →
      exErr (bootstrapRetry resolve i prev fuel).1 = true ∧
      (bootstrapRetry resolve i prev fuel).2 = fuel := by
  intro fuel
  induction fuel with
  | zero =>
    intro i prev hp _
    exact ⟨hp, rfl⟩
  | succ f ih =>
    intro i prev hp hfail
    have h0 : exErr (resolve i) = true := by
      have := hfail 0 (Nat.succ_pos f)
      simpa using this
    cases hres : resolve i with
    | ok _ =>
      rw [hres] at h0
      simp [exErr] at h0
    | error e =>
      have hrec := ih (i + 1) (Except.error e) (by simp [exErr])
        (fun j hj => by
          have e1 : i + 1 + j = i + (j + 1) := by omega
          rw [e1]
          exact hfail (j + 1) (by omega))
      refine ⟨?_, ?_⟩
      · simp [bootstrapRetry, hres, hrec.1]
      · simp [bootstrapRetry, hres, hrec.2]

/-- isSelfHostQuery unfolded to its propositional content. -/
theorem isSelfHostQuery_iff (r : Msg) :
    isSelfHostQuery r = true ↔
      ∃ q0 rest, r.question = q0 :: rest ∧ q0.qtype = TypeA ∧
        q0.name = CLOUDFLARE_DOH_HOST := by
  unfold isSelfHostQuery
  cases hq : r.question with
  | nil => simp
  | cons q0 rest =>
    simp only [Bool.and_eq_true, beq_iff_eq]
    constructor
    · rintro ⟨hA, hN⟩
      exact ⟨q0, rest, rfl, hA, hN⟩
    · rintro ⟨q1, r1, heq, hA, hN⟩
      injection heq with h1 h2
      subst h1
      exact ⟨hA, hN⟩

/-- The branch taken is selfHost exactly on self-host queries. -/
theorem serve_path_selfHost_iff (fwd : Msg → Except String Msg) (host : Msg)
    (cache : List (String × Msg)) (r : Msg) :
    (ServeDNS fwd host cache r).path = ServePath.selfHost ↔
      isSelfHostQuery r = true := by
  constructor
  · intro hpath
    by_contra hs
    have hne : (ServeDNS fwd host cache r).path ≠ ServePath.selfHost := by
      cases hq : r.question with
      | nil =>
        rw [serve_relay_nil fwd host cache r hq]
        cases hf : fwd r with
        | ok resp => rw [relay_ok fwd host cache r resp hf]; simp
        | error e => rw [relay_err fwd host cache r e hf]; simp
      | cons q0 rest =>
        by_cases hA : q0.qtype = TypeA
        · by_cases hN : q0.name = CLOUDFLARE_DOH_HOST
          · exact absurd ((isSelfHostQuery_iff r).mpr ⟨q0, rest, hq, hA, hN⟩) hs
          · cases hc : cacheGet cache q0.name with
            | some m => rw [serve_hit fwd host cache r q0 rest m hq hA hN hc]; simp
            | none =>
              cases hf : fwd r with
              | ok resp =>
                rw [serve_miss_ok fwd host cache r q0 rest resp hq hA hN hc hf]; simp
              | error e =>
                rw [serve_miss_err fwd host cache r q0 rest e hq hA hN hc hf]; simp
        · rw [serve_relay_cons fwd host cache r q0 rest hq hA]
          cases hf : fwd r with
          | ok resp => rw [relay_ok fwd host cache r resp hf]; simp
          | error e => rw [relay_err fwd host cache r e hf]; simp
    exact hne hpath
  · intro hs
    obtain ⟨q0, rest, hq, hA, hN⟩ := (isSelfHostQuery_iff r).mp hs
    rw [serve_selfHost fwd host cache r q0 rest hq hA hN]

/-- C1, counterexample: a query carrying TWO questions whose first is
A-type for the DoH upstream's own hostname still takes the self-host
shortcut, so the shortcut is not taken "exactly when the query is a
single A-type question" for that hostname. -/
theorem C1_counterexample :
    (ServeDNS fwdFail hostSample [] (mkQuery [qSelfA, qExampleA] 7)).path =
      ServePath.selfHost ∧
    (mkQuery [qSelfA, qExampleA] 7).question.length ≠ 1 := by
  decide

/-- C1 (amended): Serve takes the self-host shortcut exactly when the
question section is nonempty and its FIRST question is an A-type question
for the DoH upstream's own hostname (the remaining questions are not
inspected); in that case the reply is synthesized from the Upstream Host
Record via SetReply, and the invocation performs no cache read, no cache
write, no error logging, and no upstream call — the whole result is a
function of the host record, the cache, and the query alone,
independent of the forward oracle. -/
theorem C1_selfhost_shortcut (fwd : Msg → Except String Msg) (host : Msg)
    (cache : List (String × Msg)) (r : Msg) :
    ((ServeDNS fwd host cache r).path = ServePath.selfHost ↔
      isSelfHostQuery r = true) ∧
    (isSelfHostQuery r = true →
      ServeDNS fwd host cache r =
        { host := host.SetReply r, cache := cache, written := [host.SetReply r],
          forwards := [], errorLogged := [], cacheGets := [], cacheSets := [],
          path := ServePath.selfHost }) := by
  refine ⟨serve_path_selfHost_iff fwd host cache r, ?_⟩
  intro hs
  obtain ⟨q0, rest, hq, hA, hN⟩ := (isSelfHostQuery_iff r).mp hs
  exact serve_selfHost fwd host cache r q0 rest hq hA hN

/-- C1 witness: a concrete single-question self-host query with an
always-failing forward oracle takes the shortcut and is answered from the
host record with no cache or upstream activity. -/
theorem C1_selfhost_shortcut_witness :
    (ServeDNS fwdFail hostSample [] (mkQuery [qSelfA] 5)).path = ServePath.selfHost ∧
    ServeDNS fwdFail hostSample [] (mkQuery [qSelfA] 5) =
      { host := hostSample.SetReply (mkQuery [qSelfA] 5), cache := [],
        written := [hostSample.SetReply (mkQuery [qSelfA] 5)], forwards := [],
        errorLogged := [], cacheGets := [], cacheSets := [],
        path := ServePath.selfHost } :=
  ⟨(C1_selfhost_shortcut fwdFail hostSample [] (mkQuery [qSelfA] 5)).1.mpr (by decide),
   (C1_selfhost_shortcut fwdFail hostSample [] (mkQuery [qSelfA] 5)).2 (by decide)⟩

/-- C8, counterexample: serving a self-host query overwrites the Upstream
Host Record in place (its transaction id becomes the requester's id), so
the record is not immutable after Start returns. -/
theorem C8_counterexample :
    (ServeDNS fwdFail hostSample [] (mkQuery [qSelfA] 9)).host ≠ hostSample ∧
    (ServeDNS fwdFail hostSample [] (mkQuery [qSelfA] 9)).host.id = 9 ∧
    hostSample.id = 42 := by
  decide

/-- C8 (amended): the Upstream Host Record is left untouched by every
operation except a self-host shortcut query, which rewrites its
transaction-identifying header fields in place via SetReply; its answer
section (the statically resolved address data) is never modified by any
operation. -/
theorem C8_host_record_frame (fwd : Msg → Except String Msg) (host : Msg)
    (cache : List (String × Msg)) (r : Msg) :
    (ServeDNS fwd host cache r).host =
      (if isSelfHostQuery r = true then host.SetReply r else host) ∧
    (ServeDNS fwd host cache r).host.answer = host.answer := by
  refine ⟨serve_host_char fwd host cache r, ?_⟩
  rw [serve_host_char fwd host cache r]
  by_cases h : isSelfHostQuery r = true
  · rw [if_pos h]
    exact setReply_answer host r
  · rw [if_neg h]

/-- A query failing the combined guard (nonempty questions, first of type
A) is handled by relayBranch. -/
theorem serve_relay_of_nonA (fwd : Msg → Except String Msg) (host : Msg)
    (cache : List (String × Msg)) (r : Msg) (hA : isATypeQuery r = false) :
    ServeDNS fwd host cache r = relayBranch fwd host cache r := by
  cases hq : r.question with
  | nil => exact serve_relay_nil fwd host cache r hq
  | cons q0 rest =>
    have hA2 : q0.qtype ≠ TypeA := by
      intro h
      unfold isATypeQuery at hA
      rw [hq] at hA
      simp [h] at hA
    exact serve_relay_cons fwd host cache r q0 rest hq hA2

/-- Every insert performed over a whole sequence of served queries comes
from a query in the sequence whose first question is A-type, keyed by
that question's name. -/
theorem serveSeq_cacheSets_A (fwd : Msg → Except String Msg) :
    ∀ rs host cache, ∀ p ∈ (ServeSeq fwd host cache rs).cacheSets,
      ∃ r ∈ rs, ∃ q0 rest, r.question = q0 :: rest ∧ q0.qtype = TypeA ∧
        q0.name = p.1 := by
  intro rs
  induction rs with
  | nil =>
    intro host cache p hp
    simp [ServeSeq] at hp
  | cons r rs ih =>
    intro host cache p hp
    have hsplit : (ServeSeq fwd host cache (r :: rs)).cacheSets =
        (ServeDNS fwd host cache r).cacheSets ++
          (ServeSeq fwd (ServeDNS fwd host cache r).host
            (ServeDNS fwd host cache r).cache rs).cacheSets := rfl
    rw [hsplit] at hp
    rcases List.mem_append.mp hp with h1 | h2
    · obtain ⟨q0, rest, hq, hA, hN⟩ := serve_cacheSets_A fwd host cache r p h1
      exact ⟨r, List.mem_cons_self r rs, q0, rest, hq, hA, hN⟩
    · obtain ⟨r2, hr2, q0, rest, hq, hA, hN⟩ := ih _ _ p h2
      exact ⟨r2, List.mem_cons_of_mem r hr2, q0, rest, hq, hA, hN⟩

/-- C2: every entry ever inserted into the cache during any sequence of
served queries stems from a query whose first question is A-type and is
keyed by that queried name; a query with zero questions or a non-A first
question never reads or inserts a cache entry and is always forwarded
upstream; hence two consecutive identical non-A queries each trigger
their own upstream call. -/
theorem C2_cache_A_only (fwd : Msg → Except String Msg) :
    (∀ host cache rs, ∀ p ∈ (ServeSeq fwd host cache rs).cacheSets,
      ∃ r ∈ rs, ∃ q0 rest, r.question = q0 :: rest ∧ q0.qtype = TypeA ∧
        q0.name = p.1) ∧
    (∀ host cache r, isATypeQuery r = false →
      (ServeDNS fwd host cache r).cacheGets = [] ∧
      (ServeDNS fwd host cache r).cacheSets = [] ∧
      (ServeDNS fwd host cache r).forwards = [r]) ∧
    (∀ host cache r, isATypeQuery r = false →
      (ServeSeq fwd host cache [r, r]).forwards = [r, r]) := by
  refine ⟨fun host cache rs => serveSeq_cacheSets_A fwd rs host cache, ?_, ?_⟩
  · intro host cache r hA
    rw [serve_relay_of_nonA fwd host cache r hA]
    have hf := relay_frame fwd host cache r
    exact ⟨hf.2.2.1, hf.2.2.2.1, hf.2.2.2.2.2⟩
  · intro host cache r hA
    have h1 := serve_relay_of_nonA fwd host cache r hA
    have hf := relay_frame fwd host cache r
    show (ServeDNS fwd host cache r).forwards ++
      ((ServeDNS fwd (ServeDNS fwd host cache r).host
        (ServeDNS fwd host cache r).cache r).forwards ++ []) = [r, r]
    rw [h1, hf.1, hf.2.1, h1, hf.2.2.2.2.2]
    rfl

/-- C2 witness: a concrete A-type insert traced back to its query, and a
concrete TXT query that reads nothing, inserts nothing, is forwarded, and
when repeated is forwarded twice. -/
theorem C2_cache_A_only_witness :
    (∃ r ∈ [mkQuery [qExampleA] 1], ∃ q0 rest,
      r.question = q0 :: rest ∧ q0.qtype = TypeA ∧
      q0.name = ("example.com.", respSample).1) ∧
    (ServeDNS fwdFail hostSample [] (mkQuery [qExampleTXT] 3)).cacheGets = [] ∧
    (ServeDNS fwdFail hostSample [] (mkQuery [qExampleTXT] 3)).cacheSets = [] ∧
    (ServeSeq fwdFail hostSample []
      [mkQuery [qExampleTXT] 3, mkQuery [qExampleTXT] 3]).forwards =
      [mkQuery [qExampleTXT] 3, mkQuery [qExampleTXT] 3] :=
  have hIns := (C2_cache_A_only fwdOk).1 hostSample [] [mkQuery [qExampleA] 1]
    ("example.com.", respSample) (by decide)
  have hRel := (C2_cache_A_only fwdFail).2.1 hostSample [] (mkQuery [qExampleTXT] 3) (by decide)
  have hTwo := (C2_cache_A_only fwdFail).2.2 hostSample [] (mkQuery [qExampleTXT] 3) (by decide)
  ⟨hIns, hRel.1, hRel.2.1, hTwo⟩

/-- C3, counterexample: a zero-question query whose forward fails is
answered (the forward was attempted and the handler still responds) but
nothing is emitted to the error-logging collaborator, contradicting the
claim that every failing forward is logged. -/
theorem C3_counterexample :
    exErr (fwdFail (mkQuery [] 4)) = true ∧
    (ServeDNS fwdFail hostSample [] (mkQuery [] 4)).forwards = [mkQuery [] 4] ∧
    (ServeDNS fwdFail hostSample [] (mkQuery [] 4)).errorLogged = [] ∧
    (ServeDNS fwdFail hostSample [] (mkQuery [] 4)).written =
      [HandleFailed (mkQuery [] 4)] := by
  decide

/-- C3 (amended): whenever the forward performed for a query fails, Serve
writes exactly the HandleFailed (SERVFAIL-carrying) reply, stores nothing
in the cache, and leaves the cache unchanged; the failure is emitted to
the error-logging collaborator on the A-type cache-miss path but NOT on
the relay path; and every Serve invocation writes exactly one response. -/
theorem C3_failure_handling (fwd : Msg → Except String Msg) (host : Msg)
    (cache : List (String × Msg)) (r : Msg) (e : String) :
    (∀ q0 rest, r.question = q0 :: rest → q0.qtype = TypeA →
      q0.name ≠ CLOUDFLARE_DOH_HOST → cacheGet cache q0.name = none →
      fwd r = Except.error e →
      ServeDNS fwd host cache r =
        { host := host, cache := cache, written := [HandleFailed r],
          forwards := [r], errorLogged := [e], cacheGets := [q0.name],
          cacheSets := [], path := ServePath.cacheMiss }) ∧
    (isATypeQuery r = false → fwd r = Except.error e →
      ServeDNS fwd host cache r =
        { host := host, cache := cache, written := [HandleFailed r],
          forwards := [r], errorLogged := [], cacheGets := [],
          cacheSets := [], path := ServePath.relay }) ∧
    (HandleFailed r).rcode = RcodeServerFailure ∧
    (ServeDNS fwd host cache r).written.length = 1 := by
  refine ⟨?_, ?_, rfl, serve_written_length fwd host cache r⟩
  · intro q0 rest hq hA hN hc hf
    exact serve_miss_err fwd host cache r q0 rest e hq hA hN hc hf
  · intro hA hf
    rw [serve_relay_of_nonA fwd host cache r hA]
    exact relay_err fwd host cache r e hf

/-- C3 witness: the failure handling at concrete queries — an A-type miss
(logged) and a TXT relay (not logged). -/
theorem C3_failure_handling_witness :
    ServeDNS fwdFail hostSample [] (mkQuery [qExampleA] 8) =
      { host := hostSample, cache := [],
        written := [HandleFailed (mkQuery [qExampleA] 8)],
        forwards := [mkQuery [qExampleA] 8], errorLogged := ["boom"],
        cacheGets := ["example.com."], cacheSets := [],
        path := ServePath.cacheMiss } ∧
    ServeDNS fwdFail hostSample [] (mkQuery [qExampleTXT] 8) =
      { host := hostSample, cache := [],
        written := [HandleFailed (mkQuery [qExampleTXT] 8)],
        forwards := [mkQuery [qExampleTXT] 8], errorLogged := [],
        cacheGets := [], cacheSets := [], path := ServePath.relay } :=
  ⟨(C3_failure_handling fwdFail hostSample [] (mkQuery [qExampleA] 8) "boom").1
      qExampleA [] rfl rfl (by decide) rfl rfl,
   (C3_failure_handling fwdFail hostSample [] (mkQuery [qExampleTXT] 8) "boom").2.1
      (by decide) rfl⟩

/-- C5: an A-type query for a non-upstream name present in the cache is
answered from the cache: the written reply is the stored message with its
transaction id, question section, and reply flag rewritten to the
incoming query, its answer data identical to the stored entry's; no
forward happens and the result does not depend on the forward oracle. -/
theorem C5_cache_hit (fwd : Msg → Except String Msg) (host : Msg)
    (cache : List (String × Msg)) (r : Msg) (q0 : Question) (rest : List Question)
    (m : Msg) (hq : r.question = q0 :: rest) (hA : q0.qtype = TypeA)
    (hN : q0.name ≠ CLOUDFLARE_DOH_HOST) (hc : cacheGet cache q0.name = some m) :
    (ServeDNS fwd host cache r).written = [m.SetReply r] ∧
    (ServeDNS fwd host cache r).forwards = [] ∧
    (ServeDNS fwd host cache r).path = ServePath.cacheHit ∧
    (m.SetReply r).id = r.id ∧
    (m.SetReply r).question = [q0] ∧
    (m.SetReply r).response = true ∧
    (m.SetReply r).answer = m.answer ∧
    (∀ fwd2, ServeDNS fwd2 host cache r = ServeDNS fwd host cache r) := by
  have h := serve_hit fwd host cache r q0 rest m hq hA hN hc
  refine ⟨by rw [h], by rw [h], by rw [h], rfl,
    setReply_question m r q0 rest hq, rfl, rfl, ?_⟩
  intro fwd2
  rw [h, serve_hit fwd2 host cache r q0 rest m hq hA hN hc]

/-- C5 witness: a concrete cache hit for example.com. -/
theorem C5_cache_hit_witness :
    (ServeDNS fwdFail hostSample [("example.com.", respSample)]
      (mkQuery [qExampleA] 9)).written =
      [respSample.SetReply (mkQuery [qExampleA] 9)] ∧
    (ServeDNS fwdFail hostSample [("example.com.", respSample)]
      (mkQuery [qExampleA] 9)).forwards = [] ∧
    (respSample.SetReply (mkQuery [qExampleA] 9)).id = 9 ∧
    (respSample.SetReply (mkQuery [qExampleA] 9)).answer = respSample.answer :=
  have h := C5_cache_hit fwdFail hostSample [("example.com.", respSample)]
    (mkQuery [qExampleA] 9) qExampleA [] respSample rfl rfl (by decide) (by decide)
  ⟨h.1, h.2.1, h.2.2.2.1, h.2.2.2.2.2.2.1⟩

/-- C9: a cache hit rewrites the stored entry itself (pointer aliasing):
after the hit the cache maps the name to the SetReply-rewritten message —
carrying the current requester's transaction id, question, reply flag,
and a success rcode — and, when the requester's id differs from the
stored one, the cache no longer holds the originally inserted message. -/
theorem C9_hit_mutates_entry (fwd : Msg → Except String Msg) (host : Msg)
    (cache : List (String × Msg)) (r : Msg) (q0 : Question) (rest : List Question)
    (m : Msg) (hq : r.question = q0 :: rest) (hA : q0.qtype = TypeA)
    (hN : q0.name ≠ CLOUDFLARE_DOH_HOST) (hc : cacheGet cache q0.name = some m) :
    cacheGet (ServeDNS fwd host cache r).cache q0.name = some (m.SetReply r) ∧
    (ServeDNS fwd host cache r).written = [m.SetReply r] ∧
    (m.SetReply r).id = r.id ∧
    (m.SetReply r).question = [q0] ∧
    (m.SetReply r).response = true ∧
    (m.SetReply r).rcode = RcodeSuccess ∧
    (m.id ≠ r.id → cacheGet (ServeDNS fwd host cache r).cache q0.name ≠ some m) := by
  have h := serve_hit fwd host cache r q0 rest m hq hA hN hc
  have hcache : (ServeDNS fwd host cache r).cache =
      cacheSet cache q0.name (m.SetReply r) := by rw [h]
  refine ⟨?_, by rw [h], rfl, setReply_question m r q0 rest hq, rfl, rfl, ?_⟩
  · rw [hcache]
    exact cacheGet_cacheSet_self cache q0.name (m.SetReply r)
  · intro hid hcontra
    rw [hcache, cacheGet_cacheSet_self] at hcontra
    have h2 : m.SetReply r = m := Option.some_inj.mp hcontra
    have h3 : r.id = m.id := by
      rw [← h2]
      rfl
    exact hid h3.symm

/-- C9 witness: a concrete hit overwrites the stored entry's id 0 with
the requester's id 9. -/
theorem C9_hit_mutates_entry_witness :
    cacheGet (ServeDNS fwdFail hostSample [("example.com.", respSample)]
      (mkQuery [qExampleA] 9)).cache ("example.com.") =
      some (respSample.SetReply (mkQuery [qExampleA] 9)) ∧
    (respSample.SetReply (mkQuery [qExampleA] 9)).id = 9 ∧
    (respSample.id ≠ 9 ∧
      cacheGet (ServeDNS fwdFail hostSample [("example.com.", respSample)]
        (mkQuery [qExampleA] 9)).cache ("example.com.") ≠ some respSample) :=
  have h := C9_hit_mutates_entry fwdFail hostSample [("example.com.", respSample)]
    (mkQuery [qExampleA] 9) qExampleA [] respSample rfl rfl (by decide) (by decide)
  ⟨h.1, h.2.2.1, by decide, h.2.2.2.2.2.2 (by decide)⟩

/-- C10: whenever a forwarded query succeeds (A-type miss or non-A /
zero-question relay), the written reply is SetReply applied to the
decoded upstream message, whose response code is thereby forced to
success regardless of what the upstream reported; on the A-type miss path
the message is also stored in the cache under the queried name. -/
theorem C10_forced_success_rcode (fwd : Msg → Except String Msg) (host : Msg)
    (cache : List (String × Msg)) (r : Msg) (resp : Msg) :
    (∀ q0 rest, r.question = q0 :: rest → q0.qtype = TypeA →
      q0.name ≠ CLOUDFLARE_DOH_HOST → cacheGet cache q0.name = none →
      fwd r = Except.ok resp →
      (ServeDNS fwd host cache r).written = [resp.SetReply r] ∧
      (resp.SetReply r).rcode = RcodeSuccess ∧
      cacheGet (ServeDNS fwd host cache r).cache q0.name =
        some (resp.SetReply r)) ∧
    (isATypeQuery r = false → fwd r = Except.ok resp →
      (ServeDNS fwd host cache r).written = [resp.SetReply r] ∧
      (resp.SetReply r).rcode = RcodeSuccess) := by
  constructor
  · intro q0 rest hq hA hN hc hf
    have h := serve_miss_ok fwd host cache r q0 rest resp hq hA hN hc hf
    refine ⟨by rw [h], rfl, ?_⟩
    rw [h]
    exact cacheGet_cacheSet_self cache q0.name (resp.SetReply r)
  · intro hA hf
    rw [serve_relay_of_nonA fwd host cache r hA, relay_ok fwd host cache r resp hf]
    exact ⟨rfl, rfl⟩

/-- C10 witness: respSample carries rcode 3 (name error) yet is delivered
with rcode success on both the A-type miss path (where it is also cached)
and the TXT relay path. -/
theorem C10_forced_success_rcode_witness :
    respSample.rcode = 3 ∧
    (ServeDNS fwdOk hostSample [] (mkQuery [qExampleA] 6)).written =
      [respSample.SetReply (mkQuery [qExampleA] 6)] ∧
    (respSample.SetReply (mkQuery [qExampleA] 6)).rcode = RcodeSuccess ∧
    cacheGet (ServeDNS fwdOk hostSample [] (mkQuery [qExampleA] 6)).cache
      ("example.com.") = some (respSample.SetReply (mkQuery [qExampleA] 6)) ∧
    (ServeDNS fwdOk hostSample [] (mkQuery [qExampleTXT] 6)).written =
      [respSample.SetReply (mkQuery [qExampleTXT] 6)] :=
  have hA := (C10_forced_success_rcode fwdOk hostSample [] (mkQuery [qExampleA] 6)
    respSample).1 qExampleA [] rfl rfl (by decide) rfl rfl
  have hB := (C10_forced_success_rcode fwdOk hostSample [] (mkQuery [qExampleTXT] 6)
    respSample).2 (by decide) rfl
  ⟨rfl, hA.1, hA.2.1, hA.2.2, hB.1⟩

/-- C4: RunDNS first attempts bootstrap resolution; on initial success no
retry happens and the listener starts; when the first k attempts fail and
attempt k (1 ≤ k ≤ 5) succeeds, exactly k+1 calls and k one-second sleeps
happen and the listener starts with the resolved host; when all 6
attempts fail, RunDNS returns the bootstrap error after 6 calls and 5
sleeps, without constructing the handler or binding the listener. -/
theorem C4_bootstrap_retry (resolve : Nat → Except String Msg) :
    (∀ h, resolve 0 = Except.ok h →
      RunDNS resolve =
        { resolveCalls := 1, sleeps := 0, handlerHost := some h,
          listenerStarted := true, outcome := Except.ok () }) ∧
    (∀ k h, 1 ≤ k → k ≤ 5 → (∀ i, i < k → exErr (resolve i) = true) →
      resolve k = Except.ok h →
      RunDNS resolve =
        { resolveCalls := k + 1, sleeps := k, handlerHost := some h,
          listenerStarted := true, outcome := Except.ok () }) ∧
    ((∀ i, i < 6 → exErr (resolve i) = true) →
      RunDNS resolve =
        { resolveCalls := 6, sleeps := 5, handlerHost := none,
          listenerStarted := false, outcome := Except.error BOOTSTRAP_FAIL }) := by
  refine ⟨?_, ?_, ?_⟩
  · intro h hok
    simp [RunDNS, hok]
  · intro k h hk1 hk5 hfail hok
    have h0 := hfail 0 (by omega)
    cases hres : resolve 0 with
    | ok h2 =>
      rw [hres] at h0
      simp [exErr] at h0
    | error e0 =>
      have hret := bootstrapRetry_succeeds resolve 5 1 (Except.error e0) (k - 1) h
        (by omega)
        (fun j hj => by
          have e1 : 1 + j = j + 1 := by omega
          rw [e1]
          exact hfail (j + 1) (by omega))
        (by
          have e1 : 1 + (k - 1) = k := by omega
          rw [e1]
          exact hok)
      have e2 : k - 1 + 1 = k := by omega
      rw [e2] at hret
      simp [RunDNS, hres, hret]
  · intro hfail
    have h0 := hfail 0 (by omega)
    cases hres : resolve 0 with
    | ok h2 =>
      rw [hres] at h0
      simp [exErr] at h0
    | error e0 =>
      have hret := bootstrapRetry_all_fail resolve 5 1 (Except.error e0)
        (by simp [exErr])
        (fun j hj => by
          have e1 : 1 + j = j + 1 := by omega
          rw [e1]
          exact hfail (j + 1) (by omega))
      rcases hx : bootstrapRetry resolve 1 (Except.error e0) 5 with ⟨res, n⟩
      rw [hx] at hret
      cases res with
      | ok h3 => simp [exErr] at hret
      | error e1 => simp [RunDNS, hres, hx, hret.2]

/-- C4 witness: a resolver succeeding on its third attempt yields 3 calls
and 2 sleeps with the listener started; a resolver that never succeeds
yields the bootstrap error after 6 calls and 5 sleeps with no handler and
no listener. -/
theorem C4_bootstrap_retry_witness :
    RunDNS resolveThird =
      { resolveCalls := 3, sleeps := 2, handlerHost := some hostSample,
        listenerStarted := true, outcome := Except.ok () } ∧
    RunDNS resolveNever =
      { resolveCalls := 6, sleeps := 5, handlerHost := none,
        listenerStarted := false, outcome := Except.error BOOTSTRAP_FAIL } :=
  ⟨(C4_bootstrap_retry resolveThird).2.1 2 hostSample (by omega) (by omega)
      (by decide) rfl,
   (C4_bootstrap_retry resolveNever).2.2 (by decide)⟩

/-- C6: QueryOverHTTPS always packs exactly once; a pack error yields the
pack-error message with no transport call and no decode; a transport
error (after a successful pack) yields the transport-error message with
no decode; a decode error yields the decode-error message; and when all
three stages succeed the decoded reply is returned. -/
theorem C6_query_pipeline (c : WireCollab) (r : Msg) :
    (QueryOverHTTPS c r).packCalls = 1 ∧
    (∀ e, c.pack r = Except.error e →
      QueryOverHTTPS c r =
        { result := Except.error PACK_ERR, packCalls := 1, sendCalls := 0,
          unpackCalls := 0 }) ∧
    (∀ w e, c.pack r = Except.ok w → c.transportSend w = Except.error e →
      QueryOverHTTPS c r =
        { result := Except.error HTTPS_ERR, packCalls := 1, sendCalls := 1,
          unpackCalls := 0 }) ∧
    (∀ w b e, c.pack r = Except.ok w → c.transportSend w = Except.ok b →
      c.unpack b = Except.error e →
      QueryOverHTTPS c r =
        { result := Except.error UNPACK_ERR, packCalls := 1, sendCalls := 1,
          unpackCalls := 1 }) ∧
    (∀ w b m, c.pack r = Except.ok w → c.transportSend w = Except.ok b →
      c.unpack b = Except.ok m →
      QueryOverHTTPS c r =
        { result := Except.ok m, packCalls := 1, sendCalls := 1,
          unpackCalls := 1 }) := by
  refine ⟨?_, ?_, ?_, ?_, ?_⟩
  · unfold QueryOverHTTPS
    cases hp : c.pack r with
    | error e => rfl
    | ok w =>
      cases hs : c.transportSend w with
      | error e => simp [hs]
      | ok b =>
        cases hu : c.unpack b with
        | error e => simp [hs, hu]
        | ok m => simp [hs, hu]
  · intro e hp
    simp [QueryOverHTTPS, hp]
  · intro w e hp hs
    simp [QueryOverHTTPS, hp, hs]
  · intro w b e hp hs hu
    simp [QueryOverHTTPS, hp, hs, hu]
  · intro w b m hp hs hu
    simp [QueryOverHTTPS, hp, hs, hu]

/-- C6 witness: the pipeline at concrete collaborators exercising each of
the four outcomes. -/
theorem C6_query_pipeline_witness :
    QueryOverHTTPS wcPackFail respSample =
      { result := Except.error PACK_ERR, packCalls := 1, sendCalls := 0,
        unpackCalls := 0 } ∧
    QueryOverHTTPS wcSendFail respSample =
      { result := Except.error HTTPS_ERR, packCalls := 1, sendCalls := 1,
        unpackCalls := 0 } ∧
    QueryOverHTTPS wcUnpackFail respSample =
      { result := Except.error UNPACK_ERR, packCalls := 1, sendCalls := 1,
        unpackCalls := 1 } ∧
    QueryOverHTTPS wcAllOk respSample =
      { result := Except.ok respSample, packCalls := 1, sendCalls := 1,
        unpackCalls := 1 } :=
  ⟨(C6_query_pipeline wcPackFail respSample).2.1 ("p") rfl,
   (C6_query_pipeline wcSendFail respSample).2.2.1 [respSample.id] ("t") rfl rfl,
   (C6_query_pipeline wcUnpackFail respSample).2.2.2.1 [respSample.id]
     [respSample.id] ("u") rfl rfl rfl,
   (C6_query_pipeline wcAllOk respSample).2.2.2.2 [respSample.id]
     [respSample.id] respSample rfl rfl rfl⟩

/-- C7: makeHttpsRequest performs exactly one POST, of the given wire
bytes, with the fixed DoH content type, to the fixed upstream URL; a
completed exchange with any non-200 status yields an error carrying the
status text and no body; a network/TLS failure is returned unchanged. -/
theorem C7_single_post (exchange : PostRequest → HttpOutcome) (wire : List Nat) :
    (makeHttpsRequest exchange wire).posts = [dohPost wire] ∧
    (dohPost wire).url = CLOUDFLARE_DOH_URL ∧
    (dohPost wire).contentType = "application/dns-udpwireformat" ∧
    (dohPost wire).body = wire ∧
    (∀ sc st b, exchange (dohPost wire) = HttpOutcome.response sc st b →
      sc ≠ 200 →
      (makeHttpsRequest exchange wire).result =
        Except.error ("HTTP error code " ++ st)) ∧
    (∀ e, exchange (dohPost wire) = HttpOutcome.netErr e →
      (makeHttpsRequest exchange wire).result = Except.error e) := by
  refine ⟨?_, rfl, rfl, rfl, ?_, ?_⟩
  · cases hx : exchange (dohPost wire) with
    | netErr e => simp [makeHttpsRequest, hx]
    | response sc st b =>
      by_cases h200 : sc = 200
      · subst h200
        cases b with
        | ok bb => simp [makeHttpsRequest, hx]
        | error e => simp [makeHttpsRequest, hx]
      · simp [makeHttpsRequest, hx, h200]
  · intro sc st b hx h200
    simp [makeHttpsRequest, hx, h200]
  · intro e hx
    simp [makeHttpsRequest, hx]

/-- C7 witness: a concrete 502 exchange returns the status-text error
after exactly one POST of the query bytes, and a concrete TLS failure is
returned unchanged. -/
theorem C7_single_post_witness :
    (makeHttpsRequest httpBadGateway [1, 2]).posts = [dohPost [1, 2]] ∧
    (makeHttpsRequest httpBadGateway [1, 2]).result =
      Except.error ("HTTP error code " ++ "502 Bad Gateway") ∧
    (makeHttpsRequest httpNetFail [1, 2]).result =
      Except.error ("tls handshake failed") :=
  ⟨(C7_single_post httpBadGateway [1, 2]).1,
   (C7_single_post httpBadGateway [1, 2]).2.2.2.2.1 502 ("502 Bad Gateway")
     (Except.ok []) rfl (by decide),
   (C7_single_post httpNetFail [1, 2]).2.2.2.2.2 ("tls handshake failed") rfl⟩

end SecureDNS
